import Mathlib

/-!
Verification of the Belle `Button` and `Placeholder` components.

Style objects are flat mappings from style-property names to values; a JS
object spread `{...a, ...b}` is a shallow merge where the later object's
properties win.  We model a style object as an association list and the
spread as list append, with `styleGet` returning the value of the LAST
entry carrying a key (so later layers win, exactly as in JS).
-/

/-- A flat style object: property name / value pairs, later entries win. -/
abbrev Style := List (String × String)

/-- Value of key `k` in style `s`: the last binding wins, matching the
semantics of JS object spread where later layers override earlier ones. -/
def styleGet : Style → String → Option String
  | [], _ => none
  | (k, v) :: t, q =>
    match styleGet t q with
    | some w => some w
    | none => if k = q then some v else none

/-- Left-biased choice on optional values, used to phrase
"override wins, otherwise fall back to the base layer". -/
def orD (a b : Option String) : Option String :=
  match a with
  | some v => some v
  | none => b

/-- The design-system default style tables for the Button
(the plain data imported from the style module); the component logic is
parametric in these tables, so every theorem holds for any table values. -/
structure ButtonStyleSheet where
  style : Style
  primaryStyle : Style
  hoverStyle : Style
  primaryHoverStyle : Style
  activeStyle : Style
  primaryActiveStyle : Style
  focusStyle : Style
  primaryFocusStyle : Style
  disabledStyle : Style
  primaryDisabledStyle : Style
  disabledHoverStyle : Style
  primaryDisabledHoverStyle : Style

/-- The style-relevant props of a Button.  A style override the caller did
not pass is the empty style (spreading `undefined` in JS is a no-op, just
like appending `[]`). -/
structure ButtonProps where
  primary : Bool
  disabled : Bool
  style : Style
  hoverStyle : Style
  activeStyle : Style
  focusStyle : Style
  disabledStyle : Style
  disabledHoverStyle : Style

/-- The Button's transient interaction state: `active` lives in rendering
state, `focused` and `mouseDownOnButton` are instance fields that do not
themselves trigger a render (`mouseDownOnButton` is the spec's
`pressStartedOnElement`). -/
structure ButtonState where
  active : Bool
  focused : Bool
  mouseDownOnButton : Bool
deriving DecidableEq

/-- Guard of the one-time focus branch in `render` (part_000 lines
301-304): `this.focused && !this.state.active && !this.mouseDownOnButton
&& this.preventFocusStyleForTouchAndClick`. -/
def showOneTimeFocus (preventFocusStyleForTouchAndClick : Bool) (s : ButtonState) : Bool :=
  s.focused && !s.active && !s.mouseDownOnButton && preventFocusStyleForTouchAndClick

/-- The inline style computed by `Button.render` (part_000 lines 271-314),
translated branch for branch from the source. -/
def renderButtonStyle (sty : ButtonStyleSheet) (p : ButtonProps)
    (active focused mouseDownOnButton preventFocusStyleForTouchAndClick : Bool) : Style :=
  let baseStyle := if p.primary then sty.primaryStyle else sty.style
  let baseButtonStyle := baseStyle ++ p.style
  if p.disabled then
    if p.primary then
      baseButtonStyle ++ sty.primaryDisabledStyle ++ p.disabledStyle
    else
      baseButtonStyle ++ sty.disabledStyle ++ p.disabledStyle
  else
    if active then
      let baseActiveStyle := if p.primary then sty.primaryActiveStyle else sty.activeStyle
      baseButtonStyle ++ baseActiveStyle ++ p.activeStyle
    else if focused && !active && !mouseDownOnButton && preventFocusStyleForTouchAndClick then
      let baseFocusStyle := if p.primary then sty.primaryFocusStyle else sty.focusStyle
      baseButtonStyle ++ baseFocusStyle ++ p.focusStyle
    else
      baseButtonStyle

/-- Follows the spec's words (section 4.1, steps 1-6): start from the
variant base, apply the caller's style override, then exactly one of the
disabled / active / one-time-focus / plain layers, in that precedence
order, each as variant layer then caller override.  Written from the spec
to be compared against `renderButtonStyle`, which is written from the
source. -/
def specComputeEffectiveStyle (sty : ButtonStyleSheet) (p : ButtonProps)
    (active focused mouseDownOnButton preventFocusStyleForTouchAndClick : Bool) : Style :=
  let base := if p.primary then sty.primaryStyle else sty.style
  let withOverride := base ++ p.style
  if p.disabled then
    withOverride ++ (if p.primary then sty.primaryDisabledStyle else sty.disabledStyle) ++ p.disabledStyle
  else if active then
    withOverride ++ (if p.primary then sty.primaryActiveStyle else sty.activeStyle) ++ p.activeStyle
  else if focused && !active && !mouseDownOnButton && preventFocusStyleForTouchAndClick then
    withOverride ++ (if p.primary then sty.primaryFocusStyle else sty.focusStyle) ++ p.focusStyle
  else
    withOverride

/-- The caller-supplied event callbacks a Button can forward to. -/
inductive CallerCallback where
  | touchStart
  | touchEnd
  | touchCancel
  | mouseDown
  | focus
  | blur
deriving DecidableEq

/-- Handler `_onMouseDown` (part_000 lines 226-234): on the primary mouse
button of a non-disabled Button, record that the press started on this
element; always forward to the caller's `onMouseDown` when provided.
`provided` says which caller callbacks were passed as props. -/
def _onMouseDown (provided : CallerCallback → Bool) (button : Nat) (disabled : Bool)
    (s : ButtonState) : ButtonState × List CallerCallback :=
  ((if button == 0 && !disabled then { s with mouseDownOnButton := true } else s),
   if provided CallerCallback.mouseDown then [CallerCallback.mouseDown] else [])

/-- Handler `_onTouchStart` (part_000 lines 239-247): `touches` is the
number of simultaneous touch points on the event. -/
def _onTouchStart (provided : CallerCallback → Bool) (disabled : Bool) (touches : Nat)
    (s : ButtonState) : ButtonState × List CallerCallback :=
  ((if !disabled && touches == 1 then { s with active := true } else s),
   if provided CallerCallback.touchStart then [CallerCallback.touchStart] else [])

/-- Handler `_onTouchEnd` (part_000 lines 252-258). -/
def _onTouchEnd (provided : CallerCallback → Bool)
    (s : ButtonState) : ButtonState × List CallerCallback :=
  ({ s with active := false },
   if provided CallerCallback.touchEnd then [CallerCallback.touchEnd] else [])

/-- Handler `_onTouchCancel` (part_000 lines 263-269); note the source
forwards to `this.props.onTouchEnd`, not to `onTouchCancel`. -/
def _onTouchCancel (provided : CallerCallback → Bool)
    (s : ButtonState) : ButtonState × List CallerCallback :=
  ({ s with active := false },
   if provided CallerCallback.touchEnd then [CallerCallback.touchEnd] else [])

/-- Handler `_onFocus` (part_000 lines 204-211); it also forces a
re-render, which our state-transition view leaves to the caller. -/
def _onFocus (provided : CallerCallback → Bool)
    (s : ButtonState) : ButtonState × List CallerCallback :=
  ({ s with focused := true },
   if provided CallerCallback.focus then [CallerCallback.focus] else [])

/-- Handler `_onBlur` (part_000 lines 217-224). -/
def _onBlur (provided : CallerCallback → Bool)
    (s : ButtonState) : ButtonState × List CallerCallback :=
  ({ s with focused := false, active := false },
   if provided CallerCallback.blur then [CallerCallback.blur] else [])

/-- Lifecycle hook `componentDidUpdate` (part_000 lines 188-191): after
every completed render-and-commit cycle the non-rendering flags are
reset. -/
def componentDidUpdate (s : ButtonState) : ButtonState :=
  { s with focused := false, mouseDownOnButton := false }

/-- A pseudo-class rule set as submitted to the style-injection
collaborator: `{id, style, pseudoClass, disabled?}` (an absent `disabled`
field in the JS object is falsy, modelled as `false`). -/
structure StyleRuleEntry where
  id : String
  style : Style
  pseudoClass : String
  disabled : Bool
deriving DecidableEq

/-- Function `updatePseudoClassStyle` (part_000 lines 41-94), translated
from the source; it returns the four rule sets the source passes to
`injectStyles`. -/
def updatePseudoClassStyle (sty : ButtonStyleSheet) (styleId : String) (p : ButtonProps)
    (preventFocusStyleForTouchAndClick : Bool) : List StyleRuleEntry :=
  let baseHoverStyle := if p.primary then sty.primaryHoverStyle else sty.hoverStyle
  let baseActiveStyle := if p.primary then sty.primaryActiveStyle else sty.activeStyle
  let baseDisabledHoverStyle :=
    if p.primary then sty.primaryDisabledHoverStyle else sty.disabledHoverStyle
  let hoverStyle := baseHoverStyle ++ p.hoverStyle
  let activeStyle := baseActiveStyle ++ p.activeStyle
  let disabledHoverStyle := baseDisabledHoverStyle ++ p.disabledHoverStyle
  let focusStyle :=
    if preventFocusStyleForTouchAndClick then [("outline", "0")]
    else (if p.primary then sty.primaryFocusStyle else sty.focusStyle) ++ p.focusStyle
  [ { id := styleId, style := hoverStyle, pseudoClass := "hover", disabled := false },
    { id := styleId, style := activeStyle, pseudoClass := "active", disabled := false },
    { id := styleId, style := disabledHoverStyle, pseudoClass := "hover", disabled := true },
    { id := styleId, style := focusStyle, pseudoClass := "focus", disabled := false } ]

/-- The global pseudo-class style registry kept by the style-injection
collaborator: the rule sets currently registered. -/
abbrev Registry := List StyleRuleEntry

/-- Modelled from the spec: `removeStyle(id)` deregisters every rule set
registered under `id` (the source of the style-injection collaborator,
utils/inject-style, is not among the sources). -/
def removeStyle (styleId : String) (r : Registry) : Registry :=
  r.filter (fun e => e.id != styleId)

/-- Modelled from the spec: `injectStyles(rules)` registers the given rule
sets (the source of utils/inject-style is not among the sources). -/
def injectStyles (rules : List StyleRuleEntry) (r : Registry) : Registry :=
  r ++ rules

/-- Registry effect of `componentWillReceiveProps` (part_000 lines
173-181): deregister the old rule sets under the instance's style-id,
then register the ones computed from the new props. -/
def componentWillReceivePropsStyles (sty : ButtonStyleSheet) (styleId : String)
    (p : ButtonProps) (preventFocusStyleForTouchAndClick : Bool) (r : Registry) : Registry :=
  injectStyles (updatePseudoClassStyle sty styleId p preventFocusStyleForTouchAndClick)
    (removeStyle styleId r)

/-- Registry effect of `componentWillMount` (part_000 lines 164-168). -/
def componentWillMountStyles (sty : ButtonStyleSheet) (styleId : String)
    (p : ButtonProps) (preventFocusStyleForTouchAndClick : Bool) (r : Registry) : Registry :=
  injectStyles (updatePseudoClassStyle sty styleId p preventFocusStyleForTouchAndClick) r

/-- Registry effect of `componentWillUnmount` (part_000 lines 196-198). -/
def componentWillUnmount (styleId : String) (r : Registry) : Registry :=
  removeStyle styleId r

/-- A raw props object as a dynamic key/value map, the view the prop
sanitizers operate on. -/
abbrev RawProps := List (String × String)

/-- Modelled from the spec: `omit(obj, keys)` returns `obj` with the
listed keys removed (the source of utils/helpers is not among the
sources). -/
def omitProps (obj : RawProps) (keys : List String) : RawProps :=
  obj.filter (fun p => !(keys.contains p.1))

/-- The fixed denylist of the Button's `sanitizeChildProps` (part_000
lines 16-33). -/
def buttonOmitList : List String :=
  ["className", "style", "hoverStyle", "focusStyle", "activeStyle", "disabledStyle",
   "disabledHoverStyle", "primary", "onTouchStart", "onTouchEnd", "onTouchCancel",
   "onMouseDown", "onFocus", "onBlur"]

/-- Function `sanitizeChildProps` of the Button (part_000 lines 16-33). -/
def buttonSanitizeChildProps (properties : RawProps) : RawProps :=
  omitProps properties buttonOmitList

/-- The fixed denylist of the Placeholder's `sanitizeChildProps`
(Placeholder.js lines 8-10). -/
def placeholderOmitList : List String :=
  ["style", "disabledStyle", "_isDisabled"]

/-- Function `sanitizeChildProps` of the Placeholder (Placeholder.js
lines 8-10). -/
def placeholderSanitizeChildProps (properties : RawProps) : RawProps :=
  omitProps properties placeholderOmitList

/-- The `childProps` stored by the Button's `componentWillReceiveProps`
(part_000 lines 176-178): recomputed from the new props. -/
def buttonReceivePropsChildProps (properties : RawProps) : RawProps :=
  buttonSanitizeChildProps properties

/-- The `childProps` stored by the Placeholder's
`componentWillReceiveProps` (Placeholder.js lines 46-48). -/
def placeholderReceivePropsChildProps (properties : RawProps) : RawProps :=
  placeholderSanitizeChildProps properties

/-- Style-property keys of the Button that are overrides consumed by the
style composer (read in render and updatePseudoClassStyle). -/
def buttonStyleKeys : List String :=
  ["style", "hoverStyle", "focusStyle", "activeStyle", "disabledStyle", "disabledHoverStyle"]

/-- Event-handler props the Button itself intercepts and re-dispatches
(it attaches its own versions in render, part_000 lines 319-324). -/
def buttonInterceptedHandlers : List String :=
  ["onTouchStart", "onTouchEnd", "onTouchCancel", "onMouseDown", "onFocus", "onBlur"]

/-- Behavioral flag props the Button consumes internally: `primary`
(lines 42-44, 272, ...), `disabled` (lines 227, 240, 279) and
`preventFocusStyleForTouchAndClick` (lines 108, 174). -/
def buttonBehavioralFlags : List String :=
  ["primary", "disabled", "preventFocusStyleForTouchAndClick"]

/-- The style tables of the Placeholder (plain data from the placeholder
style module); the logic is parametric in them. -/
structure PlaceholderStyleSheet where
  style : Style
  disabledStyle : Style

/-- The style-relevant props of the Placeholder; `_isDisabled` defaults
to `false`. -/
structure PlaceholderProps where
  style : Style
  disabledStyle : Style
  _isDisabled : Bool

/-- The style computed by `Placeholder.render` (Placeholder.js lines
50-61), translated from the source. -/
def renderPlaceholderStyle (sty : PlaceholderStyleSheet) (p : PlaceholderProps) : Style :=
  let computedStyle := sty.style ++ p.style
  if p._isDisabled then
    computedStyle ++ sty.disabledStyle ++ p.disabledStyle
  else
    computedStyle

/-! Helper lemmas. -/

/-- Shallow-merge semantics of spread: in `a ++ b` the later layer `b`
wins per property, falling back to `a`. -/
theorem styleGet_append (a b : Style) (k : String) :
    styleGet (a ++ b) k = orD (styleGet b k) (styleGet a k) := by
  induction a with
  | nil => cases h : styleGet b k <;> simp [styleGet, orD, h]
  | cons hd t ih =>
    obtain ⟨k1, v1⟩ := hd
    simp only [List.cons_append, styleGet, List.append_eq]
    rw [ih]
    cases h : styleGet b k <;> cases h2 : styleGet t k <;> simp [orD, h, h2]

theorem orD_assoc (a b c : Option String) :
    orD (orD a b) c = orD a (orD b c) := by
  cases a <;> simp [orD]

theorem removeStyle_append (styleId : String) (r1 r2 : Registry) :
    removeStyle styleId (r1 ++ r2) = removeStyle styleId r1 ++ removeStyle styleId r2 := by
  simp [removeStyle, List.filter_append]

theorem removeStyle_idem (styleId : String) (r : Registry) :
    removeStyle styleId (removeStyle styleId r) = removeStyle styleId r := by
  induction r with
  | nil => rfl
  | cons e t ih =>
    by_cases h : e.id = styleId
    · simp [removeStyle, h] at ih ⊢
    · simp only [removeStyle] at ih ⊢
      simp [List.filter_cons, h, ih]

theorem removeStyle_no_own (styleId : String) (r : Registry) :
    (removeStyle styleId r).filter (fun e => e.id == styleId) = [] := by
  induction r with
  | nil => rfl
  | cons e t ih =>
    by_cases h : e.id = styleId
    · simp [removeStyle, h] at ih ⊢
    · simp only [removeStyle] at ih ⊢
      simp [List.filter_cons, h, ih]

theorem removeStyle_update_own (sty : ButtonStyleSheet) (styleId : String)
    (p : ButtonProps) (pf : Bool) :
    removeStyle styleId (updatePseudoClassStyle sty styleId p pf) = [] := by
  simp [removeStyle, updatePseudoClassStyle]

theorem update_filter_own (sty : ButtonStyleSheet) (styleId : String)
    (p : ButtonProps) (pf : Bool) :
    (updatePseudoClassStyle sty styleId p pf).filter (fun e => e.id == styleId)
      = updatePseudoClassStyle sty styleId p pf := by
  simp [updatePseudoClassStyle]

theorem update_length (sty : ButtonStyleSheet) (styleId : String)
    (p : ButtonProps) (pf : Bool) :
    (updatePseudoClassStyle sty styleId p pf).length = 4 := by
  simp [updatePseudoClassStyle]

/-! Claim theorems. -/

/-- C1: for every Button render with props and interaction state, the
rendered inline style equals the layered shallow merge described by the
spec (variant base, caller style override, then exactly one of the
disabled / active / one-time-focus / plain layers, disabled
short-circuiting everything and active taking precedence over one-time
focus), and with `disabled = true` the result is independent of the
interaction state. -/
theorem button_render_style_layering (sty : ButtonStyleSheet) (p : ButtonProps)
    (active focused mouseDownOnButton preventFocus : Bool) :
    renderButtonStyle sty p active focused mouseDownOnButton preventFocus =
      specComputeEffectiveStyle sty p active focused mouseDownOnButton preventFocus ∧
    (∀ a2 f2 m2 pf2 : Bool,
      renderButtonStyle sty { p with disabled := true } active focused mouseDownOnButton preventFocus
        = renderButtonStyle sty { p with disabled := true } a2 f2 m2 pf2) := by
  constructor
  · cases hp : p.primary <;> cases hd : p.disabled <;>
      simp [renderButtonStyle, specComputeEffectiveStyle, hp, hd]
  · intro a2 f2 m2 pf2
    cases hp : p.primary <;> simp [renderButtonStyle, hp]

/-- C2: the one-time focus guard holds iff `focused = true`,
`active = false`, `mouseDownOnButton = false` (the spec's
`pressStartedOnElement`) and `preventFocusStyleForTouchAndClick = true`;
`mouseDownOnButton` is set exactly by a primary-button mouseDown on a
non-disabled Button, so a mouseDown-then-focus sequence never satisfies
the guard while a focus not preceded by such a mouseDown (from a state
with `active = false` and `mouseDownOnButton = false`) does. -/
theorem one_time_focus_condition (s : ButtonState) (provided : CallerCallback → Bool)
    (h1 : s.active = false) (h2 : s.mouseDownOnButton = false) :
    (∀ (pf : Bool) (t : ButtonState),
        showOneTimeFocus pf t = true ↔
          (t.focused = true ∧ t.active = false ∧ t.mouseDownOnButton = false ∧ pf = true)) ∧
    (∀ (t : ButtonState) (b2 : Nat) (dis : Bool),
        ((_onMouseDown provided b2 dis t).fst).mouseDownOnButton
          = ((b2 == 0 && !dis) || t.mouseDownOnButton)) ∧
    (∀ t : ButtonState,
        showOneTimeFocus true ((_onFocus provided ((_onMouseDown provided 0 false t).fst)).fst)
          = false) ∧
    showOneTimeFocus true ((_onFocus provided s).fst) = true := by
  refine ⟨?_, ?_, ?_, ?_⟩
  · intro pf t
    obtain ⟨a, f, m⟩ := t
    cases a <;> cases f <;> cases m <;> cases pf <;> simp [showOneTimeFocus]
  · intro t b2 dis
    cases hb : (b2 == 0 && !dis) <;> simp [_onMouseDown, hb]
  · intro t
    simp [_onMouseDown, _onFocus, showOneTimeFocus]
  · simp [_onFocus, showOneTimeFocus, h1, h2]

/-- Witness for C2 at the concrete state with all flags false and no
caller callbacks provided. -/
theorem one_time_focus_condition_witness :
    ({ active := false, focused := false, mouseDownOnButton := false } : ButtonState).active
      = false ∧
    ({ active := false, focused := false, mouseDownOnButton := false } : ButtonState).mouseDownOnButton
      = false ∧
    showOneTimeFocus true ((_onFocus (fun _ => false)
      { active := false, focused := false, mouseDownOnButton := false }).fst) = true :=
  ⟨rfl, rfl,
    (one_time_focus_condition
      { active := false, focused := false, mouseDownOnButton := false }
      (fun _ => false) rfl rfl).2.2.2⟩

/-- C3: after every completed render-and-commit cycle
(`componentDidUpdate`), `focused` and `mouseDownOnButton` are reset to
`false` (while `active` is untouched), so the one-time focus guard is
false on any subsequent render until a new focus event. -/
theorem focus_flags_reset_after_update (s : ButtonState) (pf : Bool) :
    (componentDidUpdate s).focused = false ∧
    (componentDidUpdate s).mouseDownOnButton = false ∧
    (componentDidUpdate s).active = s.active ∧
    showOneTimeFocus pf (componentDidUpdate s) = false := by
  simp [componentDidUpdate, showOneTimeFocus]

/-- C4: a touchStart sets `active` to true iff the Button is not disabled
and the event carries exactly one touch point, leaves the other state
flags unchanged, and always forwards to the caller's `onTouchStart`
exactly when it is provided. -/
theorem touch_start_active_iff_single_touch (provided : CallerCallback → Bool)
    (disabled : Bool) (touches : Nat) (s : ButtonState) :
    ((_onTouchStart provided disabled touches s).fst).active
      = ((!disabled && touches == 1) || s.active) ∧
    ((_onTouchStart provided disabled touches s).fst).focused = s.focused ∧
    ((_onTouchStart provided disabled touches s).fst).mouseDownOnButton
      = s.mouseDownOnButton ∧
    (_onTouchStart provided disabled touches s).snd
      = (if provided CallerCallback.touchStart then [CallerCallback.touchStart] else []) := by
  cases h : (!disabled && touches == 1) <;> simp [_onTouchStart, h]

/-- C5: both touchEnd and touchCancel unconditionally set `active` to
false and forward to the caller's `onTouchEnd` callback exactly when it
is provided; the caller's `onTouchCancel` callback is never invoked by
either handler. -/
theorem touch_end_touch_cancel_behavior (provided : CallerCallback → Bool) (s : ButtonState) :
    (_onTouchEnd provided s).fst = { s with active := false } ∧
    (_onTouchCancel provided s).fst = { s with active := false } ∧
    (_onTouchEnd provided s).snd
      = (if provided CallerCallback.touchEnd then [CallerCallback.touchEnd] else []) ∧
    (_onTouchCancel provided s).snd = (_onTouchEnd provided s).snd ∧
    CallerCallback.touchCancel ∉ (_onTouchEnd provided s).snd ∧
    CallerCallback.touchCancel ∉ (_onTouchCancel provided s).snd := by
  cases h : provided CallerCallback.touchEnd <;>
    simp [_onTouchEnd, _onTouchCancel, h]

/-- C6: after `componentWillReceiveProps` the rule sets registered under
the instance's style-id are exactly the four newly computed ones; a
further prop update leaves the registry size unchanged; and unmounting
removes every rule set registered under the style-id, leaving the
registry as it was before the instance registered anything under its
id. -/
theorem pseudo_style_registration_lifecycle (sty sty2 : ButtonStyleSheet)
    (styleId : String) (p p2 : ButtonProps) (pf pf2 : Bool) (r : Registry) :
    (componentWillReceivePropsStyles sty styleId p pf r).filter (fun e => e.id == styleId)
      = updatePseudoClassStyle sty styleId p pf ∧
    (componentWillReceivePropsStyles sty2 styleId p2 pf2
        (componentWillReceivePropsStyles sty styleId p pf r)).length
      = (componentWillReceivePropsStyles sty styleId p pf r).length ∧
    componentWillUnmount styleId (componentWillReceivePropsStyles sty styleId p pf r)
      = removeStyle styleId r ∧
    (componentWillUnmount styleId (componentWillReceivePropsStyles sty styleId p pf r)).filter
      (fun e => e.id == styleId) = [] := by
  have hunm : componentWillUnmount styleId (componentWillReceivePropsStyles sty styleId p pf r)
      = removeStyle styleId r := by
    simp only [componentWillUnmount, componentWillReceivePropsStyles, injectStyles,
      removeStyle_append, removeStyle_idem, removeStyle_update_own, List.append_nil]
  refine ⟨?_, ?_, hunm, ?_⟩
  · simp only [componentWillReceivePropsStyles, injectStyles, List.filter_append,
      removeStyle_no_own, update_filter_own, List.nil_append]
  · simp only [componentWillReceivePropsStyles, injectStyles, removeStyle_append,
      removeStyle_idem, removeStyle_update_own, List.append_nil, List.length_append,
      update_length]
  · rw [hunm]
    exact removeStyle_no_own styleId r

/-- C7: the pseudo-class registrar submits exactly four rule sets under
the given style-id — hover, active, disabled+hover (flagged disabled) and
focus, in that order — each computed per property as the caller's
override winning over the variant base; with
`preventFocusStyleForTouchAndClick` the focus rule is the explicit
no-visible-outline rule instead. -/
theorem update_pseudo_class_style_rules (sty : ButtonStyleSheet) (styleId : String)
    (p : ButtonProps) (prevent : Bool) :
    ∃ rHover rActive rDisabledHover rFocus : StyleRuleEntry,
      updatePseudoClassStyle sty styleId p prevent
        = [rHover, rActive, rDisabledHover, rFocus] ∧
      [rHover.id, rActive.id, rDisabledHover.id, rFocus.id]
        = [styleId, styleId, styleId, styleId] ∧
      [(rHover.pseudoClass, rHover.disabled), (rActive.pseudoClass, rActive.disabled),
       (rDisabledHover.pseudoClass, rDisabledHover.disabled),
       (rFocus.pseudoClass, rFocus.disabled)]
        = [("hover", false), ("active", false), ("hover", true), ("focus", false)] ∧
      (∀ k, styleGet rHover.style k
        = orD (styleGet p.hoverStyle k)
            (styleGet (if p.primary then sty.primaryHoverStyle else sty.hoverStyle) k)) ∧
      (∀ k, styleGet rActive.style k
        = orD (styleGet p.activeStyle k)
            (styleGet (if p.primary then sty.primaryActiveStyle else sty.activeStyle) k)) ∧
      (∀ k, styleGet rDisabledHover.style k
        = orD (styleGet p.disabledHoverStyle k)
            (styleGet (if p.primary then sty.primaryDisabledHoverStyle
                       else sty.disabledHoverStyle) k)) ∧
      (∀ k, styleGet rFocus.style k
        = if prevent then styleGet [("outline", "0")] k
          else orD (styleGet p.focusStyle k)
            (styleGet (if p.primary then sty.primaryFocusStyle else sty.focusStyle) k)) := by
  refine ⟨_, _, _, _, rfl, rfl, rfl, ?_, ?_, ?_, ?_⟩
  · intro k
    exact styleGet_append _ _ k
  · intro k
    exact styleGet_append _ _ k
  · intro k
    exact styleGet_append _ _ k
  · intro k
    cases hpr : prevent <;> simp [hpr, styleGet_append]

/-- C8: per property, the Placeholder's rendered style is the static
default shallow-merged with the caller's style override, and when
`_isDisabled` additionally (in order) with the default disabledStyle and
the caller's disabledStyle override, later layers winning — in
particular a caller `disabledStyle` binding such as color red wins over
all defaults when `_isDisabled` is true. -/
theorem placeholder_render_style_merge (sty : PlaceholderStyleSheet) (p : PlaceholderProps) :
    ∀ k, styleGet (renderPlaceholderStyle sty p) k
      = if p._isDisabled then
          orD (styleGet p.disabledStyle k)
            (orD (styleGet sty.disabledStyle k)
              (orD (styleGet p.style k) (styleGet sty.style k)))
        else orD (styleGet p.style k) (styleGet sty.style k) := by
  intro k
  cases h : p._isDisabled <;> simp [renderPlaceholderStyle, h, styleGet_append, orD_assoc]

/-- Counterexample to C9: `preventFocusStyleForTouchAndClick` is a
behavioral flag the Button consumes internally (part_000 lines 108 and
174), yet the Button's sanitizer forwards it unchanged — the fixed
denylist does not cover all internally consumed behavioral flags. -/
theorem sanitize_denylist_incomplete_cex :
    "preventFocusStyleForTouchAndClick" ∈ buttonBehavioralFlags ∧
    "preventFocusStyleForTouchAndClick" ∉ buttonOmitList ∧
    buttonSanitizeChildProps [("preventFocusStyleForTouchAndClick", "true")]
      = [("preventFocusStyleForTouchAndClick", "true")] := by
  refine ⟨by decide, by decide, by decide⟩

/-- C9 as amended: for both components the forwarded props equal the
caller's props with the component's fixed denylist removed, recomputed
whenever new props arrive; the Button denylist covers every style
override key, every intercepted handler, `className` and the `primary`
flag, and the Placeholder denylist covers its whole internal surface —
but the Button's internally consumed flags `disabled` and
`preventFocusStyleForTouchAndClick` are not removed. -/
theorem sanitize_forward_amended (raw : RawProps) :
    buttonSanitizeChildProps raw = omitProps raw buttonOmitList ∧
    placeholderSanitizeChildProps raw = omitProps raw placeholderOmitList ∧
    buttonReceivePropsChildProps raw = buttonSanitizeChildProps raw ∧
    placeholderReceivePropsChildProps raw = placeholderSanitizeChildProps raw ∧
    buttonStyleKeys.all (fun k => buttonOmitList.contains k) = true ∧
    buttonInterceptedHandlers.all (fun k => buttonOmitList.contains k) = true ∧
    buttonOmitList.contains "className" = true ∧
    buttonOmitList.contains "primary" = true ∧
    placeholderOmitList.contains "style" = true ∧
    placeholderOmitList.contains "disabledStyle" = true ∧
    placeholderOmitList.contains "_isDisabled" = true ∧
    buttonOmitList.contains "disabled" = false ∧
    buttonOmitList.contains "preventFocusStyleForTouchAndClick" = false := by
  exact ⟨rfl, rfl, rfl, rfl, by decide, by decide, by decide, by decide, by decide,
    by decide, by decide, by decide, by decide⟩

/-- C10: with `preventFocusStyleForTouchAndClick = true` the injected
focus rule is exactly the single-property style with outline 0, for
every style table and every props value — neither the caller's
`focusStyle` override nor the variant's focus style influences it. -/
theorem prevent_focus_style_outline_rule (sty sty2 : ButtonStyleSheet) (styleId : String)
    (p p2 : ButtonProps) :
    (∃ r1 r2 r3 : StyleRuleEntry,
      updatePseudoClassStyle sty styleId p true
        = [r1, r2, r3,
           { id := styleId, style := [("outline", "0")],
             pseudoClass := "focus", disabled := false }]) ∧
    (updatePseudoClassStyle sty styleId p true).getLast?
      = (updatePseudoClassStyle sty2 styleId p2 true).getLast? := by
  constructor
  · exact ⟨_, _, _, rfl⟩
  · rfl
